import Mathlib

/-!
Verification development for the v6/v7 alert compatibility layer of a
cloud security platform client SDK.

The repository ships the unit tests of this layer; the implementation
modules themselves (the v7-to-v6 alert projector, the legacy criteria
mapper, and the resource-selection layer) are not part of the source
tree given here.  Following the specification, those parts are modelled
below as pure Lean functions; the field tables (drop sets, criteria
keys) are transcribed from the unit-test sources, which enumerate them
explicitly.
-/

namespace CbcSdk

/-- A JSON value, as handled by the compatibility layer: null, booleans,
integers, strings, arrays and objects (association lists of fields). -/
inductive JValue where
  | jnull : JValue
  | jbool : Bool → JValue
  | jnum : Int → JValue
  | jstr : String → JValue
  | jarr : List JValue → JValue
  | jobj : List (String × JValue) → JValue

/-- First-match association-list lookup, the model of Python dict access. -/
def lookupAssoc {α : Type} (k : String) : List (String × α) → Option α
  | [] => none
  | (k', v) :: rest => if k' = k then some v else lookupAssoc k rest

/-- Fields on the v6 base alert object that have no equivalent in v7
(transcribed from BASE_FIELDS_V6 in the compatibility test module). -/
def BASE_FIELDS_V6 : List String :=
  ["alert_classification", "category", "comment", "group_details",
   "threat_activity_c2", "threat_cause_threat_category",
   "threat_cause_actor_process_pid"]

/-- Fields on the v6 CB Analytics alert object that have no equivalent in v7. -/
def CB_ANALYTICS_FIELDS_V6 : List String :=
  ["blocked_threat_category", "kill_chain_status",
   "not_blocked_threat_category", "threat_activity_c2",
   "threat_activity_dlp", "threat_activity_phish", "threat_cause_vector"]

/-- Fields on the v6 Device Control alert object that have no equivalent in v7. -/
def DEVICE_CONTROL_FIELDS_V6 : List String :=
  ["threat_cause_vector"]

/-- Fields on the v6 Container Runtime alert object that have no equivalent in v7. -/
def CONTAINER_RUNTIME_FIELDS_V6 : List String :=
  ["workload_id", "target_value"]

/-- Fields on the v6 Watchlist alert object that have no equivalent in v7. -/
def WATCHLIST_FIELDS_V6 : List String :=
  ["count", "document_guid", "threat_cause_vector", "threat_indicators"]

/-- Aggregate of all per-subtype and base drop fields
(ALL_FIELDS_V6 in the compatibility test module). -/
def ALL_FIELDS_V6 : List String :=
  CB_ANALYTICS_FIELDS_V6 ++ BASE_FIELDS_V6 ++ DEVICE_CONTROL_FIELDS_V6
    ++ WATCHLIST_FIELDS_V6 ++ CONTAINER_RUNTIME_FIELDS_V6

def kType : String := "type"

def kCbAnalytics : String := "CB_ANALYTICS"

def kWatchlist : String := "WATCHLIST"

def kDeviceControl : String := "DEVICE_CONTROL"

def kContainerRuntime : String := "CONTAINER_RUNTIME"

def kHbfw : String := "HBFW"

def kActorName : String := "threat_cause_actor_name"

def kProcessName : String := "process_name"

/-- The two fields with special, non-literal treatment in the projection
(COMPLEX_MAPPING_V6 in the compatibility test module). -/
def specialKeys : List String := [kActorName, kProcessName]

/-- Modelled from the spec: the drop set applied by the v7-to-v6 projector,
per alert subtype.  The four subtypes with a known drop set remove the base
fields plus their own set; HBFW and unrecognized subtypes perform a pure
copy with no deletions.  The field lists come from the test module. -/
def dropSetFor (ty : String) : List String :=
  if ty = kCbAnalytics then BASE_FIELDS_V6 ++ CB_ANALYTICS_FIELDS_V6
  else if ty = kDeviceControl then BASE_FIELDS_V6 ++ DEVICE_CONTROL_FIELDS_V6
  else if ty = kContainerRuntime then BASE_FIELDS_V6 ++ CONTAINER_RUNTIME_FIELDS_V6
  else if ty = kWatchlist then BASE_FIELDS_V6 ++ WATCHLIST_FIELDS_V6
  else []

/-- Modelled from the spec: the actor-name field is truncated to v6's
shorter-field convention (the exact length is not given by the spec;
one hundred characters is used here). -/
def truncateActorName (s : String) : String := s.take 100

def fSlash : String := "/"

def bSlash : String := "\\"

/-- Modelled from the spec: the process-name field is reduced from a full
path to just the file name (last component after either path separator). -/
def baseNameOf (s : String) : String :=
  ((s.replace bSlash fSlash).splitOn fSlash).getLastD s

/-- Modelled from the spec: the special-case transformation for the two
deliberately lossy fields; every other field is left untouched. -/
def applySpecial (k : String) (v : JValue) : JValue :=
  if k = kActorName then
    match v with
    | JValue.jstr s => JValue.jstr (truncateActorName s)
    | w => w
  else if k = kProcessName then
    match v with
    | JValue.jstr s => JValue.jstr (baseNameOf s)
    | w => w
  else v

mutual

/-- Modelled from the spec: the recursive body of the v7-to-v6 projection.
Given the drop set of the record's subtype, objects have their dropped
fields removed and the drop/copy/special rules applied recursively;
other values are copied. -/
def projectValue (drop : List String) : JValue → JValue
  | JValue.jobj fields => JValue.jobj (projectFields drop fields)
  | JValue.jarr xs => JValue.jarr (projectArr drop xs)
  | v => v

/-- Field-list worker of the projection: dropped keys are removed, kept
fields are projected recursively and then special-cased by key. -/
def projectFields (drop : List String) : List (String × JValue) → List (String × JValue)
  | [] => []
  | (k, v) :: rest =>
    if drop.contains k then projectFields drop rest
    else (k, applySpecial k (projectValue drop v)) :: projectFields drop rest

/-- Array worker of the projection: elements are projected pointwise. -/
def projectArr (drop : List String) : List JValue → List JValue
  | [] => []
  | v :: rest => projectValue drop v :: projectArr drop rest

end

/-- The subtype discriminator of an alert record: the string value of its
type field, or the empty string when absent or non-string. -/
def typeOfFields (fields : List (String × JValue)) : String :=
  match lookupAssoc kType fields with
  | some (JValue.jstr s) => s
  | _ => ""

/-- Modelled from the spec: the v7-to-v6 projection (to_json of the v6
format).  The subtype is read from the type discriminator field, its drop
set is chosen, and the drop/copy/special rules are applied recursively. -/
def toJsonV6 : JValue → JValue
  | JValue.jobj fields => JValue.jobj (projectFields (dropSetFor (typeOfFields fields)) fields)
  | v => v

mutual

/-- Whether key k occurs as a field name anywhere in a JSON value: at the
top level of an object or inside any nested sub-object, including objects
reached through arrays. -/
def containsKeyV (k : String) : JValue → Bool
  | JValue.jobj fields => containsKeyF k fields
  | JValue.jarr xs => containsKeyA k xs
  | _ => false

/-- Field-list worker of containsKeyV. -/
def containsKeyF (k : String) : List (String × JValue) → Bool
  | [] => false
  | (k', v) :: rest => (k' = k : Bool) || containsKeyV k v || containsKeyF k rest

/-- Array worker of containsKeyV. -/
def containsKeyA (k : String) : List JValue → Bool
  | [] => false
  | v :: rest => containsKeyV k v || containsKeyA k rest

end

/-- A criteria value: the legacy setters store either strings or integers. -/
inductive CVal where
  | s : String → CVal
  | i : Int → CVal
deriving DecidableEq

/-- Whether a criteria value is an integer. -/
def isIntCVal : CVal → Bool
  | CVal.i _ => true
  | CVal.s _ => false

/-- The time-range block of the v7 search request body. -/
structure TimeRange where
  startTime : String
  endTime : String
deriving DecidableEq

/-- Modelled from the spec: the state accumulated by the legacy alert search
query builder that is relevant to the criteria mapper — the generic criteria
mapping, the time-range block for time-based filters, and the row limit. -/
structure AlertQueryState where
  criteria : List (String × List CVal)
  timeRange : Option TimeRange
  rows : Option Int
deriving DecidableEq

/-- A freshly selected alert search query, before any setter runs. -/
def emptyAlertQuery : AlertQueryState :=
  { criteria := [], timeRange := none, rows := none }

/-- Replace-or-append update of the criteria association list: the entry for
the key is overwritten in place when present, appended otherwise. -/
def setCriteriaList (key : String) (vals : List CVal) :
    List (String × List CVal) → List (String × List CVal)
  | [] => [(key, vals)]
  | (k, v) :: rest =>
    if k = key then (key, vals) :: rest else (k, v) :: setCriteriaList key vals rest

/-- Modelled from the spec: the single generic criteria-update primitive that
every legacy setter is a facade over.  A repeated call for the same key
overwrites the previous value list. -/
def updateCriteria (key : String) (vals : List CVal) (q : AlertQueryState) : AlertQueryState :=
  { q with criteria := setCriteriaList key vals q.criteria }

def kId : String := "id"

def kDeviceId : String := "device_id"

def kDeviceName : String := "device_name"

def kDeviceOs : String := "device_os"

def kDeviceOsVersion : String := "device_os_version"

def kDeviceUsername : String := "device_username"

def kDevicePolicyId : String := "device_policy_id"

def kDevicePolicy : String := "device_policy"

def kProcessSha256 : String := "process_sha256"

def kProcessReputation : String := "process_reputation"

def kTags : String := "tags"

def kDeviceTargetValue : String := "device_target_value"

def kK8sWorkloadName : String := "k8s_workload_name"

def kK8sCluster : String := "k8s_cluster"

def kK8sNamespace : String := "k8s_namespace"

def kNetconnLocalPort : String := "netconn_local_port"

def kNetconnProtocol : String := "netconn_protocol"

def kNetconnRemoteDomain : String := "netconn_remote_domain"

def kNetconnRemoteIp : String := "netconn_remote_ip"

def kK8sPodName : String := "k8s_pod_name"

def kK8sRuleId : String := "k8s_rule_id"

def kK8sRule : String := "k8s_rule"

def kK8sKind : String := "k8s_kind"

def kRuleId : String := "rule_id"

def kCriteria : String := "criteria"

def kTimeRange : String := "time_range"

def kRows : String := "rows"

def kStart : String := "start"

def kEnd : String := "end"

/-- Legacy setter: alert ids go to the id criteria key as strings. -/
def set_alert_ids (vs : List String) (q : AlertQueryState) : AlertQueryState :=
  updateCriteria kId (vs.map CVal.s) q

/-- Legacy setter: legacy alert ids also go to the id criteria key. -/
def set_legacy_alert_ids (vs : List String) (q : AlertQueryState) : AlertQueryState :=
  updateCriteria kId (vs.map CVal.s) q

/-- Legacy setter: device ids are a numeric field, stored as integers. -/
def set_device_ids (vs : List Int) (q : AlertQueryState) : AlertQueryState :=
  updateCriteria kDeviceId (vs.map CVal.i) q

/-- Legacy setter: external device ids also write the device_id criteria key,
but their string values pass through unchanged. -/
def set_external_device_ids (vs : List String) (q : AlertQueryState) : AlertQueryState :=
  updateCriteria kDeviceId (vs.map CVal.s) q

/-- Legacy setter: device names pass through as strings. -/
def set_device_names (vs : List String) (q : AlertQueryState) : AlertQueryState :=
  updateCriteria kDeviceName (vs.map CVal.s) q

/-- Legacy setter: device operating systems pass through as strings. -/
def set_device_os (vs : List String) (q : AlertQueryState) : AlertQueryState :=
  updateCriteria kDeviceOs (vs.map CVal.s) q

/-- Legacy setter: device OS versions pass through as strings. -/
def set_device_os_versions (vs : List String) (q : AlertQueryState) : AlertQueryState :=
  updateCriteria kDeviceOsVersion (vs.map CVal.s) q

/-- Legacy setter: device usernames pass through as strings. -/
def set_device_username (vs : List String) (q : AlertQueryState) : AlertQueryState :=
  updateCriteria kDeviceUsername (vs.map CVal.s) q

/-- Legacy setter: policy ids are a numeric field, stored as integers. -/
def set_policy_ids (vs : List Int) (q : AlertQueryState) : AlertQueryState :=
  updateCriteria kDevicePolicyId (vs.map CVal.i) q

/-- Legacy setter: policy names pass through as strings. -/
def set_policy_names (vs : List String) (q : AlertQueryState) : AlertQueryState :=
  updateCriteria kDevicePolicy (vs.map CVal.s) q

/-- Legacy setter: process names pass through as strings. -/
def set_process_names (vs : List String) (q : AlertQueryState) : AlertQueryState :=
  updateCriteria kProcessName (vs.map CVal.s) q

/-- Legacy setter: process hashes pass through as strings. -/
def set_process_sha256 (vs : List String) (q : AlertQueryState) : AlertQueryState :=
  updateCriteria kProcessSha256 (vs.map CVal.s) q

/-- Legacy setter: reputations pass through as strings. -/
def set_reputations (vs : List String) (q : AlertQueryState) : AlertQueryState :=
  updateCriteria kProcessReputation (vs.map CVal.s) q

/-- Legacy setter: tags pass through as strings. -/
def set_tags (vs : List String) (q : AlertQueryState) : AlertQueryState :=
  updateCriteria kTags (vs.map CVal.s) q

/-- Legacy setter: target priorities pass through as strings. -/
def set_target_priorities (vs : List String) (q : AlertQueryState) : AlertQueryState :=
  updateCriteria kDeviceTargetValue (vs.map CVal.s) q

/-- Legacy setter: workload names pass through as strings. -/
def set_workload_names (vs : List String) (q : AlertQueryState) : AlertQueryState :=
  updateCriteria kK8sWorkloadName (vs.map CVal.s) q

/-- Legacy setter: cluster names pass through as strings. -/
def set_cluster_names (vs : List String) (q : AlertQueryState) : AlertQueryState :=
  updateCriteria kK8sCluster (vs.map CVal.s) q

/-- Legacy setter: namespaces pass through as strings. -/
def set_namespaces (vs : List String) (q : AlertQueryState) : AlertQueryState :=
  updateCriteria kK8sNamespace (vs.map CVal.s) q

/-- Legacy setter: ports are a numeric field, stored as integers. -/
def set_ports (vs : List Int) (q : AlertQueryState) : AlertQueryState :=
  updateCriteria kNetconnLocalPort (vs.map CVal.i) q

/-- Legacy setter: protocols pass through as strings. -/
def set_protocols (vs : List String) (q : AlertQueryState) : AlertQueryState :=
  updateCriteria kNetconnProtocol (vs.map CVal.s) q

/-- Legacy setter: remote domains pass through as strings. -/
def set_remote_domains (vs : List String) (q : AlertQueryState) : AlertQueryState :=
  updateCriteria kNetconnRemoteDomain (vs.map CVal.s) q

/-- Legacy setter: remote IPs pass through as strings. -/
def set_remote_ips (vs : List String) (q : AlertQueryState) : AlertQueryState :=
  updateCriteria kNetconnRemoteIp (vs.map CVal.s) q

/-- Legacy setter: replica ids map to the pod-name criteria key. -/
def set_replica_ids (vs : List String) (q : AlertQueryState) : AlertQueryState :=
  updateCriteria kK8sPodName (vs.map CVal.s) q

/-- Legacy setter: rule ids map to the container-runtime rule-id key, a
leftover of their original container-runtime-only scope. -/
def set_rule_ids (vs : List String) (q : AlertQueryState) : AlertQueryState :=
  updateCriteria kK8sRuleId (vs.map CVal.s) q

/-- Legacy setter: rule names map to the container-runtime rule key. -/
def set_rule_names (vs : List String) (q : AlertQueryState) : AlertQueryState :=
  updateCriteria kK8sRule (vs.map CVal.s) q

/-- Legacy setter: workload kinds pass through as strings. -/
def set_workload_kinds (vs : List String) (q : AlertQueryState) : AlertQueryState :=
  updateCriteria kK8sKind (vs.map CVal.s) q

/-- Modelled from the spec: the time-based legacy filter stores its bounds in
the dedicated time-range block rather than in the criteria mapping. -/
def set_create_time (s e : String) (q : AlertQueryState) : AlertQueryState :=
  { q with timeRange := some { startTime := s, endTime := e } }

/-- Row-limit setter of the search query. -/
def set_rows (n : Int) (q : AlertQueryState) : AlertQueryState :=
  { q with rows := some n }

/-- Render a criteria value as JSON. -/
def cvalToJ : CVal → JValue
  | CVal.s v => JValue.jstr v
  | CVal.i v => JValue.jnum v

/-- Modelled from the spec: the fields of the v7 search request body built
from the query state — the time-range block, the criteria mapping, and the
row limit, each present only when set. -/
def bodyFields (q : AlertQueryState) : List (String × JValue) :=
  (match q.timeRange with
   | some tr => [(kTimeRange, JValue.jobj [(kEnd, JValue.jstr tr.endTime),
                                           (kStart, JValue.jstr tr.startTime)])]
   | none => []) ++
  (match q.criteria with
   | [] => []
   | cs => [(kCriteria, JValue.jobj (cs.map (fun kv => (kv.1, JValue.jarr (kv.2.map cvalToJ)))))]) ++
  (match q.rows with
   | some n => [(kRows, JValue.jnum n)]
   | none => [])

/-- The v7 search request body as a JSON object. -/
def buildBody (q : AlertQueryState) : JValue := JValue.jobj (bodyFields q)

/-- Modelled from the spec: the table of model classes known to the
resource-selection layer, each with the query class it selects
(names transcribed from the query-layer test module). -/
def modelClasses : List (String × String) :=
  [("DeviceSummary", "ResultQuery"),
   ("DeviceSummaryFacet", "FacetQuery"),
   ("Result", "ResultQuery"),
   ("ResultFacet", "FacetQuery"),
   ("Run", "RunQuery"),
   ("RunHistory", "RunHistoryQuery"),
   ("Template", "RunQuery"),
   ("TemplateHistory", "TemplateHistoryQuery"),
   ("Recommendation", "RecommendationQuery"),
   ("EnrichedEvent", "EnrichedEventQuery"),
   ("EnrichedEventFacet", "FacetQuery"),
   ("EndPointStandardEvent", "Query"),
   ("Policy", "Query"),
   ("USBDevice", "USBDeviceQuery"),
   ("USBDeviceApproval", "USBDeviceApprovalQuery"),
   ("USBDeviceBlock", "USBDeviceBlockQuery"),
   ("Feed", "FeedQuery"),
   ("Report", "ReportQuery"),
   ("Watchlist", "WatchlistQuery"),
   ("BaseAlert", "BaseAlertSearchQuery"),
   ("CBAnalyticsAlert", "CBAnalyticsAlertSearchQuery"),
   ("DeviceControlAlert", "DeviceControlAlertSearchQuery"),
   ("WatchlistAlert", "WatchlistAlertSearchQuery"),
   ("Device", "DeviceSearchQuery"),
   ("Event", "EventQuery"),
   ("EventFacet", "EventFacetQuery"),
   ("Grant", "GrantQuery"),
   ("Process", "AsyncProcessQuery"),
   ("Process.Summary", "SummaryQuery"),
   ("Process.Tree", "SummaryQuery"),
   ("ProcessFacet", "FacetQuery"),
   ("ReputationOverride", "ReputationOverrideQuery"),
   ("User", "UserQuery"),
   ("Vulnerability", "VulnerabilityQuery"),
   ("Vulnerability.OrgSummary", "VulnerabilityOrgSummaryQuery"),
   ("SensorKit", "SensorKitQuery"),
   ("ComputeResource", "ComputeResourceQuery")]

/-- Outcome of selecting a model by name: either a query object for the
class, or the model-not-found error condition. -/
inductive SelectOutcome where
  | query : String → SelectOutcome
  | modelNotFound : SelectOutcome
deriving DecidableEq

/-- Modelled from the spec: the resource-selection operation.  A name that
identifies a known model class yields its query object; an unrecognized
name signals the model-not-found condition to the caller. -/
def selectModel (name : String) : SelectOutcome :=
  match lookupAssoc name modelClasses with
  | some q => SelectOutcome.query q
  | none => SelectOutcome.modelNotFound

/-- Lookup of a field of a JSON object; non-objects have no fields. -/
def lookupKey (k : String) : JValue → Option JValue
  | JValue.jobj fs => lookupAssoc k fs
  | _ => none

theorem lookupAssoc_setCriteriaList_self (key : String) (vals : List CVal) :
    (cs : List (String × List CVal)) →
      lookupAssoc key (setCriteriaList key vals cs) = some vals
  | [] => by simp [setCriteriaList, lookupAssoc]
  | (k, v) :: rest => by
      by_cases h : k = key
      · simp [setCriteriaList, h, lookupAssoc]
      · simp [setCriteriaList, h, lookupAssoc,
              lookupAssoc_setCriteriaList_self key vals rest]

theorem lookupAssoc_setCriteriaList_other (key k2 : String) (vals : List CVal)
    (hne : k2 ≠ key) :
    (cs : List (String × List CVal)) →
      lookupAssoc k2 (setCriteriaList key vals cs) = lookupAssoc k2 cs
  | [] => by simp [setCriteriaList, lookupAssoc, Ne.symm hne]
  | (k, v) :: rest => by
      by_cases h : k = key
      · simp [setCriteriaList, h, lookupAssoc, Ne.symm hne]
      · by_cases h2 : k = k2
        · simp [setCriteriaList, h, lookupAssoc, h2, hne]
        · simp [setCriteriaList, h, lookupAssoc, h2,
                lookupAssoc_setCriteriaList_other key k2 vals hne rest]

theorem setCriteriaList_overwrite (key : String) (xs ys : List CVal) :
    (cs : List (String × List CVal)) →
      setCriteriaList key ys (setCriteriaList key xs cs) = setCriteriaList key ys cs
  | [] => by simp [setCriteriaList]
  | (k, v) :: rest => by
      by_cases h : k = key
      · simp [setCriteriaList, h]
      · simp [setCriteriaList, h, setCriteriaList_overwrite key xs ys rest]

/-- C4: for every list of string values, the legacy set_rule_ids call stores
them under the container-runtime criteria key k8s_rule_id of the v7 search
request body, and never writes a criteria key named rule_id. -/
theorem set_rule_ids_uses_k8s_rule_id (vs : List String) (q : AlertQueryState) :
    lookupAssoc kK8sRuleId (set_rule_ids vs q).criteria = some (vs.map CVal.s) ∧
    lookupAssoc kRuleId (set_rule_ids vs q).criteria = lookupAssoc kRuleId q.criteria ∧
    buildBody (set_rule_ids vs emptyAlertQuery) =
      JValue.jobj [(kCriteria, JValue.jobj [(kK8sRuleId, JValue.jarr (vs.map JValue.jstr))])] := by
  refine ⟨?_, ?_, ?_⟩
  · simp [set_rule_ids, updateCriteria, lookupAssoc_setCriteriaList_self]
  · exact lookupAssoc_setCriteriaList_other kK8sRuleId kRuleId (vs.map CVal.s)
      (by decide) q.criteria
  · simp [set_rule_ids, updateCriteria, emptyAlertQuery, buildBody, bodyFields,
          setCriteriaList, cvalToJ, Function.comp]

/-- C5: repeating a legacy setter overwrites: a second call with new values
leaves the query in the same state a single call with those values produces,
so no other criteria key is affected.  This holds for the generic criteria
primitive every setter is a facade over, and hence for each named setter;
representative named setters are instantiated alongside. -/
theorem legacy_setter_overwrite (key : String) (xs ys : List CVal)
    (sx sy : List String) (nx ny : List Int) (t1 t2 u1 u2 : String)
    (q : AlertQueryState) :
    updateCriteria key ys (updateCriteria key xs q) = updateCriteria key ys q ∧
    set_alert_ids sy (set_alert_ids sx q) = set_alert_ids sy q ∧
    set_device_ids ny (set_device_ids nx q) = set_device_ids ny q ∧
    set_rule_ids sy (set_rule_ids sx q) = set_rule_ids sy q ∧
    set_create_time u1 u2 (set_create_time t1 t2 q) = set_create_time u1 u2 q := by
  refine ⟨?_, ?_, ?_, ?_, ?_⟩
  all_goals
    simp [updateCriteria, set_alert_ids, set_device_ids, set_rule_ids,
          set_create_time, setCriteriaList_overwrite]

/-- C6: the legacy time-based filter stores its bounds in the top-level
time-range block of the v7 search request body, leaves the criteria mapping
untouched, and the criteria-writing setters never touch the time range. -/
theorem set_create_time_uses_time_range (s e key : String) (vals : List CVal)
    (q q2 : AlertQueryState) :
    (set_create_time s e q).timeRange = some { startTime := s, endTime := e } ∧
    (set_create_time s e q).criteria = q.criteria ∧
    (updateCriteria key vals q2).timeRange = q2.timeRange ∧
    buildBody (set_create_time s e emptyAlertQuery) =
      JValue.jobj [(kTimeRange, JValue.jobj [(kEnd, JValue.jstr e),
                                             (kStart, JValue.jstr s)])] := by
  refine ⟨rfl, rfl, rfl, ?_⟩
  simp [set_create_time, emptyAlertQuery, buildBody, bodyFields]

/-- C3 counterexample: the claim asserts integer coercion for every setter
that writes the device_id criteria key, but set_external_device_ids writes
device_id with its string inputs unchanged: on input of the string value
123 the stored criteria entry is a string, not an integer. -/
theorem set_external_device_ids_stores_strings :
    lookupAssoc kDeviceId (set_external_device_ids ["123"] emptyAlertQuery).criteria
      = some [CVal.s ("123")] ∧
    ([CVal.s ("123")].all isIntCVal) = false := by
  exact ⟨rfl, rfl⟩

/-- C3 (amended): the numeric filter setters (device id, port, policy id)
store integers, and every other legacy setter passes its values through
unchanged as strings — including set_external_device_ids, which also writes
the device_id criteria key but keeps its string inputs as strings.  The
concrete body for set_device_ids applied to the integer 123 is included. -/
theorem numeric_setters_store_integers (ns ps ls : List Int)
    (ss : List String) (q : AlertQueryState) :
    lookupAssoc kDeviceId (set_device_ids ns q).criteria = some (ns.map CVal.i) ∧
    lookupAssoc kDevicePolicyId (set_policy_ids ps q).criteria = some (ps.map CVal.i) ∧
    lookupAssoc kNetconnLocalPort (set_ports ls q).criteria = some (ls.map CVal.i) ∧
    lookupAssoc kDeviceId (set_external_device_ids ss q).criteria = some (ss.map CVal.s) ∧
    lookupAssoc kId (set_alert_ids ss q).criteria = some (ss.map CVal.s) ∧
    lookupAssoc kId (set_legacy_alert_ids ss q).criteria = some (ss.map CVal.s) ∧
    lookupAssoc kDeviceName (set_device_names ss q).criteria = some (ss.map CVal.s) ∧
    lookupAssoc kDeviceOs (set_device_os ss q).criteria = some (ss.map CVal.s) ∧
    lookupAssoc kDeviceOsVersion (set_device_os_versions ss q).criteria = some (ss.map CVal.s) ∧
    lookupAssoc kDeviceUsername (set_device_username ss q).criteria = some (ss.map CVal.s) ∧
    lookupAssoc kDevicePolicy (set_policy_names ss q).criteria = some (ss.map CVal.s) ∧
    lookupAssoc kProcessName (set_process_names ss q).criteria = some (ss.map CVal.s) ∧
    lookupAssoc kProcessSha256 (set_process_sha256 ss q).criteria = some (ss.map CVal.s) ∧
    lookupAssoc kProcessReputation (set_reputations ss q).criteria = some (ss.map CVal.s) ∧
    lookupAssoc kTags (set_tags ss q).criteria = some (ss.map CVal.s) ∧
    lookupAssoc kDeviceTargetValue (set_target_priorities ss q).criteria = some (ss.map CVal.s) ∧
    lookupAssoc kK8sWorkloadName (set_workload_names ss q).criteria = some (ss.map CVal.s) ∧
    lookupAssoc kK8sCluster (set_cluster_names ss q).criteria = some (ss.map CVal.s) ∧
    lookupAssoc kK8sNamespace (set_namespaces ss q).criteria = some (ss.map CVal.s) ∧
    lookupAssoc kNetconnProtocol (set_protocols ss q).criteria = some (ss.map CVal.s) ∧
    lookupAssoc kNetconnRemoteDomain (set_remote_domains ss q).criteria = some (ss.map CVal.s) ∧
    lookupAssoc kNetconnRemoteIp (set_remote_ips ss q).criteria = some (ss.map CVal.s) ∧
    lookupAssoc kK8sPodName (set_replica_ids ss q).criteria = some (ss.map CVal.s) ∧
    lookupAssoc kK8sRuleId (set_rule_ids ss q).criteria = some (ss.map CVal.s) ∧
    lookupAssoc kK8sRule (set_rule_names ss q).criteria = some (ss.map CVal.s) ∧
    lookupAssoc kK8sKind (set_workload_kinds ss q).criteria = some (ss.map CVal.s) ∧
    buildBody (set_rows 1 (set_device_ids [123] emptyAlertQuery)) =
      JValue.jobj [(kCriteria, JValue.jobj [(kDeviceId, JValue.jarr [JValue.jnum 123])]),
                   (kRows, JValue.jnum 1)] := by
  repeat' apply And.intro
  all_goals
    first
    | rfl
    | simp [set_device_ids, set_policy_ids, set_ports, set_external_device_ids,
            set_alert_ids, set_legacy_alert_ids, set_device_names, set_device_os,
            set_device_os_versions, set_device_username, set_policy_names,
            set_process_names, set_process_sha256, set_reputations, set_tags,
            set_target_priorities, set_workload_names, set_cluster_names,
            set_namespaces, set_protocols, set_remote_domains, set_remote_ips,
            set_replica_ids, set_rule_ids, set_rule_names, set_workload_kinds,
            updateCriteria, lookupAssoc_setCriteriaList_self]

/-- C8: the v7-to-v6 projection is deterministic — two applications to the
same v7 input produce identical v6 outputs. -/
theorem to_json_v6_deterministic (v w : JValue) (h : v = w) :
    toJsonV6 v = toJsonV6 w := by rw [h]

/-- Witness for C8 at a concrete alert record. -/
theorem to_json_v6_deterministic_witness :
    toJsonV6 (JValue.jobj [(kType, JValue.jstr kHbfw)]) =
      toJsonV6 (JValue.jobj [(kType, JValue.jstr kHbfw)]) :=
  to_json_v6_deterministic (JValue.jobj [(kType, JValue.jstr kHbfw)])
    (JValue.jobj [(kType, JValue.jstr kHbfw)]) rfl

/-- C9: selecting a name that identifies no known model class signals the
model-not-found condition to the caller instead of returning a query. -/
theorem select_unknown_model_not_found (name : String)
    (h : lookupAssoc name modelClasses = none) :
    selectModel name = SelectOutcome.modelNotFound := by
  simp [selectModel, h]

/-- Witness for C9 at the concrete unknown name used by the test suite. -/
theorem select_unknown_model_not_found_witness :
    selectModel ("NON_EXISTENT") = SelectOutcome.modelNotFound :=
  select_unknown_model_not_found ("NON_EXISTENT") (by decide)

theorem containsKeyV_applySpecial (k k2 : String) (v : JValue) :
    containsKeyV k (applySpecial k2 v) = containsKeyV k v := by
  cases v <;> simp [applySpecial, containsKeyV] <;> split_ifs <;> rfl

theorem applySpecial_eq_of_not_special (k : String) (v : JValue)
    (h : k ∉ specialKeys) : applySpecial k v = v := by
  simp only [specialKeys, List.mem_cons, List.not_mem_nil, or_false, not_or] at h
  simp [applySpecial, h.1, h.2]

mutual

theorem projectValue_no_drop (drop : List String) (k : String) (hk : k ∈ drop) :
    (v : JValue) → containsKeyV k (projectValue drop v) = false
  | JValue.jnull => rfl
  | JValue.jbool _ => rfl
  | JValue.jnum _ => rfl
  | JValue.jstr _ => rfl
  | JValue.jarr xs => projectArr_no_drop drop k hk xs
  | JValue.jobj fs => projectFields_no_drop drop k hk fs

theorem projectFields_no_drop (drop : List String) (k : String) (hk : k ∈ drop) :
    (fs : List (String × JValue)) → containsKeyF k (projectFields drop fs) = false
  | [] => rfl
  | (k2, v) :: rest => by
      by_cases h : k2 ∈ drop
      · simpa [projectFields, h] using projectFields_no_drop drop k hk rest
      · have hne : k2 ≠ k := fun he => h (he ▸ hk)
        simp [projectFields, h, containsKeyF, hne, containsKeyV_applySpecial,
              projectValue_no_drop drop k hk v, projectFields_no_drop drop k hk rest]

theorem projectArr_no_drop (drop : List String) (k : String) (hk : k ∈ drop) :
    (xs : List JValue) → containsKeyA k (projectArr drop xs) = false
  | [] => rfl
  | v :: rest => by
      simp [projectArr, containsKeyA, projectValue_no_drop drop k hk v,
            projectArr_no_drop drop k hk rest]

end

mutual

theorem projectValue_id (drop : List String) :
    (v : JValue) → (∀ k ∈ drop ++ specialKeys, containsKeyV k v = false) →
      projectValue drop v = v
  | JValue.jnull, _ => rfl
  | JValue.jbool _, _ => rfl
  | JValue.jnum _, _ => rfl
  | JValue.jstr _, _ => rfl
  | JValue.jarr xs, h => congrArg JValue.jarr (projectArr_id drop xs h)
  | JValue.jobj fs, h => congrArg JValue.jobj (projectFields_id drop fs h)

theorem projectFields_id (drop : List String) :
    (fs : List (String × JValue)) →
      (∀ k ∈ drop ++ specialKeys, containsKeyF k fs = false) →
      projectFields drop fs = fs
  | [], _ => rfl
  | (k2, v) :: rest, h => by
      have hsplit : ∀ k ∈ drop ++ specialKeys,
          k2 ≠ k ∧ containsKeyV k v = false ∧ containsKeyF k rest = false := by
        intro k hkmem
        have hx := h k hkmem
        simp only [containsKeyF, Bool.or_eq_false_iff, decide_eq_false_iff_not] at hx
        exact ⟨hx.1.1, hx.1.2, hx.2⟩
      have hk2 : k2 ∉ drop ++ specialKeys := fun hmem => (hsplit k2 hmem).1 rfl
      have hdrop : k2 ∉ drop := fun hd => hk2 (List.mem_append.mpr (Or.inl hd))
      have hspec : k2 ∉ specialKeys := fun hs => hk2 (List.mem_append.mpr (Or.inr hs))
      have hv := projectValue_id drop v (fun k hkmem => (hsplit k hkmem).2.1)
      have hrest := projectFields_id drop rest (fun k hkmem => (hsplit k hkmem).2.2)
      simp [projectFields, hdrop, hv, applySpecial_eq_of_not_special k2 v hspec, hrest]

theorem projectArr_id (drop : List String) :
    (xs : List JValue) →
      (∀ k ∈ drop ++ specialKeys, containsKeyA k xs = false) →
      projectArr drop xs = xs
  | [], _ => rfl
  | v :: rest, h => by
      have hsplit : ∀ k ∈ drop ++ specialKeys,
          containsKeyV k v = false ∧ containsKeyA k rest = false := by
        intro k hkmem
        have hx := h k hkmem
        simp only [containsKeyA, Bool.or_eq_false_iff] at hx
        exact hx
      have hv := projectValue_id drop v (fun k hkmem => (hsplit k hkmem).1)
      have hrest := projectArr_id drop rest (fun k hkmem => (hsplit k hkmem).2)
      simp [projectArr, hv, hrest]

end

theorem lookupAssoc_projectFields (drop : List String) (k : String) (hk : k ∉ drop) :
    (fs : List (String × JValue)) →
      lookupAssoc k (projectFields drop fs) =
        (lookupAssoc k fs).map (fun v => applySpecial k (projectValue drop v))
  | [] => by simp [projectFields, lookupAssoc]
  | (k2, v) :: rest => by
      by_cases h : k2 ∈ drop
      · have hne : ¬ k2 = k := fun he => hk (he ▸ h)
        simp [projectFields, h, lookupAssoc, hne, lookupAssoc_projectFields drop k hk rest]
      · by_cases he : k2 = k
        · simp [projectFields, h, lookupAssoc, he, hk]
        · simp [projectFields, h, lookupAssoc, he, lookupAssoc_projectFields drop k hk rest]

theorem dropSetFor_subset_all (ty k : String) (h : k ∈ dropSetFor ty) :
    k ∈ ALL_FIELDS_V6 := by
  unfold dropSetFor at h
  split_ifs at h <;>
    first
    | exact absurd h (List.not_mem_nil k)
    | · simp only [List.mem_append] at h
        simp only [ALL_FIELDS_V6, List.mem_append]
        tauto

/-- C1: for a v7 alert record of any of the four subtypes with a drop set,
the v6 object produced by the v7-to-v6 projection contains no key of the
applicable drop set (the base set plus the subtype's own set), neither at
the top level nor inside any nested sub-object. -/
theorem drop_sets_absent_from_v6 (ty k : String) (fs : List (String × JValue))
    (_hty : ty ∈ [kCbAnalytics, kWatchlist, kDeviceControl, kContainerRuntime])
    (hdisc : typeOfFields fs = ty)
    (hk : k ∈ dropSetFor ty) :
    containsKeyV k (toJsonV6 (JValue.jobj fs)) = false := by
  have hrw : toJsonV6 (JValue.jobj fs) =
      JValue.jobj (projectFields (dropSetFor ty) fs) := by
    simp [toJsonV6, hdisc]
  rw [hrw]
  exact projectFields_no_drop (dropSetFor ty) k hk fs

/-- Witness for C1: a CB Analytics record carrying the dropped field
kill_chain_status at the top level and inside a nested sub-object; the
projection contains it nowhere. -/
theorem drop_sets_absent_from_v6_witness :
    containsKeyV ("kill_chain_status")
      (toJsonV6 (JValue.jobj
        [(kType, JValue.jstr kCbAnalytics),
         ("kill_chain_status", JValue.jstr ("x")),
         ("nested", JValue.jobj [("kill_chain_status", JValue.jstr ("y")),
                                 ("id", JValue.jstr ("a"))])])) = false :=
  drop_sets_absent_from_v6 kCbAnalytics ("kill_chain_status")
    [(kType, JValue.jstr kCbAnalytics),
     ("kill_chain_status", JValue.jstr ("x")),
     ("nested", JValue.jobj [("kill_chain_status", JValue.jstr ("y")),
                             ("id", JValue.jstr ("a"))])]
    (by decide) rfl (by decide)

/-- C2: for a key that is in no drop set and is not one of the two
special-cased keys, and whose value carries no drop-set or special key in
any nested sub-object (as is the case for every genuine v7 value, those
fields having no v7 equivalent), the v6 projection preserves the v7 value
exactly; a key absent from the v7 source stays absent from the projection. -/
theorem v6_preserves_untouched_values (fs : List (String × JValue))
    (k : String) (val : JValue)
    (hk1 : k ∉ ALL_FIELDS_V6) (hk2 : k ∉ specialKeys)
    (hval : ∀ k2 ∈ dropSetFor (typeOfFields fs) ++ specialKeys,
      containsKeyV k2 val = false) :
    (lookupAssoc k fs = some val →
      lookupKey k (toJsonV6 (JValue.jobj fs)) = some val) ∧
    (lookupAssoc k fs = none →
      lookupKey k (toJsonV6 (JValue.jobj fs)) = none) := by
  have hdrop : k ∉ dropSetFor (typeOfFields fs) :=
    fun hd => hk1 (dropSetFor_subset_all (typeOfFields fs) k hd)
  have hlook := lookupAssoc_projectFields (dropSetFor (typeOfFields fs)) k hdrop fs
  constructor
  · intro hsome
    have hid := projectValue_id (dropSetFor (typeOfFields fs)) val hval
    simp [toJsonV6, lookupKey, hlook, hsome, hid,
          applySpecial_eq_of_not_special k val hk2]
  · intro hnone
    simp [toJsonV6, lookupKey, hlook, hnone]

/-- Witness for C2: the id field of a CB Analytics record is preserved
exactly by the projection. -/
theorem v6_preserves_untouched_values_witness :
    lookupKey ("id")
      (toJsonV6 (JValue.jobj [(kType, JValue.jstr kCbAnalytics),
                              ("id", JValue.jstr ("a"))])) =
      some (JValue.jstr ("a")) :=
  (v6_preserves_untouched_values
    [(kType, JValue.jstr kCbAnalytics), ("id", JValue.jstr ("a"))]
    ("id") (JValue.jstr ("a")) (by decide) (by decide) (by decide)).1 rfl

theorem projectFields_nil_keys :
    (fs : List (String × JValue)) →
      (projectFields [] fs).map Prod.fst = fs.map Prod.fst
  | [] => rfl
  | (k2, v) :: rest => by
      simp [projectFields, projectFields_nil_keys rest]

/-- C7: for a record whose subtype has no drop set (HBFW), the projection
is a pure copy with renames and the two special cases only: the key list of
the output equals that of the source (no field is deleted), and every
non-special-cased field whose value carries no special key in any nested
sub-object is preserved exactly. -/
theorem hbfw_projection_pure_copy (fs : List (String × JValue))
    (hty : typeOfFields fs = kHbfw) :
    toJsonV6 (JValue.jobj fs) = JValue.jobj (projectFields [] fs) ∧
    (projectFields [] fs).map Prod.fst = fs.map Prod.fst ∧
    (∀ k val, k ∉ specialKeys →
      (∀ k2 ∈ specialKeys, containsKeyV k2 val = false) →
      lookupAssoc k fs = some val →
      lookupAssoc k (projectFields [] fs) = some val) := by
  have hnil : dropSetFor kHbfw = [] := rfl
  refine ⟨by simp [toJsonV6, hty, hnil], projectFields_nil_keys fs, ?_⟩
  intro k val hk hval hsome
  have hlook := lookupAssoc_projectFields [] k (List.not_mem_nil k) fs
  have hid := projectValue_id [] val hval
  simp [hlook, hsome, hid, applySpecial_eq_of_not_special k val hk]

/-- Witness for C7 at a concrete HBFW record: the id field survives with
its value, and the key list is unchanged. -/
theorem hbfw_projection_pure_copy_witness :
    lookupAssoc ("id")
      (projectFields [] [(kType, JValue.jstr kHbfw), ("id", JValue.jstr ("a"))]) =
      some (JValue.jstr ("a")) :=
  (hbfw_projection_pure_copy
    [(kType, JValue.jstr kHbfw), ("id", JValue.jstr ("a"))] rfl).2.2
    ("id") (JValue.jstr ("a")) (by decide) (by decide) rfl

end CbcSdk
